import Mathlib

/-
  Verification development for the front-to-back-router core:
  a shallow embedding of src/src/UriParameterBinder.ts and
  src/src/middleware/registration/ApplyConfiguration.ts (which also
  contains the Router class), together with theorems settling the
  frozen claims about the specification.
-/

set_option maxRecDepth 8000

/- JavaScript string primitives used by the binder. -/

/-- Uppercase hex digit character for a value below 16. -/
def hexUpperChar (n : Nat) : Char :=
  if n < 10 then Char.ofNat (48 + n) else Char.ofNat (55 + n)

/-- Percent-encoding of a single byte, as in the output of encodeURIComponent. -/
def percentEncodeByte (b : Nat) : List Char :=
  [Char.ofNat 37, hexUpperChar (b / 16), hexUpperChar (b % 16)]

/-- UTF-8 byte sequence of a Unicode code point. -/
def utf8Bytes (n : Nat) : List Nat :=
  if n < 128 then [n]
  else if n < 2048 then [192 + n / 64, 128 + n % 64]
  else if n < 65536 then [224 + n / 4096, 128 + n / 64 % 64, 128 + n % 64]
  else [240 + n / 262144, 128 + n / 4096 % 64, 128 + n / 64 % 64, 128 + n % 64]

/-- Characters left unescaped by JavaScript's encodeURIComponent:
ASCII letters, digits, and the marks - _ . ! ~ * apostrophe ( ). -/
def isUriUnescaped (c : Char) : Bool :=
  let n := c.toNat
  (65 ≤ n && n ≤ 90) || (97 ≤ n && n ≤ 122) || (48 ≤ n && n ≤ 57) ||
    [45, 95, 46, 33, 126, 42, 39, 40, 41].contains n

/-- JavaScript's encodeURIComponent: percent-encode the UTF-8 bytes of
every character outside the unescaped set. -/
def encodeURIComponent (s : String) : String :=
  String.mk (s.data.foldr
    (fun c acc =>
      (if isUriUnescaped c then [c]
       else (utf8Bytes c.toNat).foldr (fun b a => percentEncodeByte b ++ a) []) ++ acc) [])

/-- Whitespace characters removed by JavaScript's String.prototype.trim. -/
def isJsSpace (c : Char) : Bool :=
  [9, 10, 11, 12, 13, 32, 160, 8232, 8233, 65279].contains c.toNat

/-- JavaScript's String.prototype.trim. -/
def jsTrim (s : String) : String :=
  String.mk (((s.data.dropWhile isJsSpace).reverse.dropWhile isJsSpace).reverse)

/-- Whether the first list is an initial segment of the second. -/
def leadsWith : List Char → List Char → Bool
  | [], _ => true
  | _ :: _, [] => false
  | p :: ps, c :: cs => p == c && leadsWith ps cs

/-- Index of the leftmost occurrence of pat in the list, if any. -/
def findSubstr (pat : List Char) : List Char → Option Nat
  | [] => if leadsWith pat [] then some 0 else none
  | c :: rest =>
    if leadsWith pat (c :: rest) then some 0
    else (findSubstr pat rest).map (fun n => n + 1)

/-- JavaScript's String.prototype.replace with a plain-string search value:
replace the first occurrence only; return the string unchanged when the
search value does not occur. -/
def replaceFirst (s pat repl : String) : String :=
  match findSubstr pat.data s.data with
  | none => s
  | some i => String.mk (s.data.take i ++ repl.data ++ s.data.drop (i + pat.data.length))

/- JavaScript runtime values, as passed to bind. -/

/-- A JavaScript value of the shapes the binder dispatches on. -/
inductive JsValue where
  | str (s : String)
  | num (n : Int)
  | bool (b : Bool)
  | null
  | undefined
  | obj (fields : List (String × JsValue))
  | arr (elems : List JsValue)

/-- JavaScript's typeof operator on the modelled values. -/
def jsTypeof : JsValue → String
  | .str _ => "string"
  | .num _ => "number"
  | .bool _ => "boolean"
  | .null => "object"
  | .undefined => "undefined"
  | .obj _ => "object"
  | .arr _ => "object"

mutual

/-- JavaScript's ToString coercion on the modelled values. -/
def jsToString : JsValue → String
  | .str s => s
  | .num n => toString n
  | .bool b => if b then "true" else "false"
  | .null => "null"
  | .undefined => "undefined"
  | .obj _ => "[object Object]"
  | .arr xs => jsArrayJoin xs

/-- Array.prototype.toString: elements joined with commas. -/
def jsArrayJoin : List JsValue → String
  | [] => ""
  | [x] => jsElementString x
  | x :: y :: rest => jsElementString x ++ "," ++ jsArrayJoin (y :: rest)

/-- Element conversion inside Array.prototype.join: null and undefined
become the empty string. -/
def jsElementString : JsValue → String
  | .null => ""
  | .undefined => ""
  | .str s => s
  | .num n => toString n
  | .bool b => if b then "true" else "false"
  | .obj _ => "[object Object]"
  | .arr xs => jsArrayJoin xs

end

/-- Property access on a plain object: the value stored at the key, or
undefined when the key is absent. -/
def lookupField (fields : List (String × JsValue)) (k : String) : JsValue :=
  match fields.find? (fun kv => kv.1 == k) with
  | some kv => kv.2
  | none => .undefined

/-- The delete operator on a plain object's key. -/
def deleteKey (fields : List (String × JsValue)) (k : String) : List (String × JsValue) :=
  fields.filter (fun kv => !(kv.1 == k))

/-- Deleting a list of keys in order. -/
def deleteKeys (fields : List (String × JsValue)) (ks : List String) : List (String × JsValue) :=
  ks.foldl deleteKey fields

/- Error taxonomy (src/src/error). -/

/-- TypeConversionError: raised by a conversion function that cannot
stringify a value. -/
structure TypeConvErr where
  msg : String
deriving DecidableEq

/-- The synchronous exceptions of the core: UriParameterBindingError
(optionally wrapping a TypeConversionError as its cause), a raw
TypeConversionError, a JavaScript runtime TypeError, and the Router's
RegistrationError. -/
inductive JsError where
  | bindingError (msg : String) (cause : Option TypeConvErr)
  | conversionError (err : TypeConvErr)
  | typeError (msg : String)
  | registrationError (msg : String)
deriving DecidableEq

/- UriParameter and template parsing. -/

/-- One placeholder of a template: name, required flag and the exact
placeholder substring (src/src/UriParameter, as described by the spec). -/
structure UriParameter where
  name : String
  required : Bool
  placeholder : String
deriving DecidableEq

/-- State of the left-to-right placeholder scan. -/
structure ScanState where
  inToken : Bool
  acc : List Char
  found : List UriParameter
  failed : Bool

/-- Close the current placeholder token: reject an empty name, read a
trailing question mark as the optional marker, and record the full
matched substring as the placeholder. -/
def finishToken (st : ScanState) : ScanState :=
  let inner := st.acc.reverse
  if inner.isEmpty || inner == [Char.ofNat 63] then
    { st with failed := true, inToken := false, acc := [] }
  else
    let isOpt := inner.getLast? == some (Char.ofNat 63)
    let nameChars := if isOpt then inner.dropLast else inner
    let p : UriParameter :=
      { name := String.mk nameChars
        required := !isOpt
        placeholder := String.mk (Char.ofNat 123 :: (inner ++ [Char.ofNat 125])) }
    { inToken := false, acc := [], found := st.found ++ [p], failed := st.failed }

/-- One step of the placeholder scan over a template character. -/
def scanStep (st : ScanState) (c : Char) : ScanState :=
  if st.inToken then
    if c == Char.ofNat 125 then finishToken st
    else { st with acc := c :: st.acc }
  else
    if c == Char.ofNat 123 then { st with inToken := true, acc := [] }
    else st

/-- Modelled from the spec: UriParameterCollection.parseFromUri, whose
implementation is not under src (only its declaration file is). Scans the
template left to right for brace-delimited tokens; a trailing question
mark inside a token marks the parameter optional; the full matched
substring is recorded as the placeholder; parameters are collected in
first-occurrence order; an empty name or an unterminated delimiter is a
UriParameterSyntaxError, modelled as none. -/
def parseFromUri (uri : String) : Option (List UriParameter) :=
  let st := uri.data.foldl scanStep ⟨false, [], [], false⟩
  if st.failed || st.inToken then none else some st.found

/-- Modelled from the spec: getParameter returns the first parameter with
the given name, or null when absent (UriParameterCollection source is not
under src). -/
def getParameter (ps : List UriParameter) (n : String) : Option UriParameter :=
  ps.find? (fun p => p.name == n)

/- Binder configuration. -/

/-- Modelled from the spec: the default typeConversionFunction performs
numeric and boolean stringification and yields the null failure sentinel
for every other non-string value (the configuration class is not under
src). -/
def defaultTypeConversionFunction : JsValue → Option String
  | .num n => some (toString n)
  | .bool b => some (if b then "true" else "false")
  | _ => none

/-- Modelled from the spec: the binder configuration record, carrying the
bindGetParameters flag (default false) and the pluggable
typeConversionFunction (the configuration class is not under src). -/
structure UriParameterBinderConfiguration where
  bindGetParameters : Bool
  typeConversionFunction : JsValue → Option String

/-- The binder configuration with the spec's defaults. -/
def defaultBinderConfiguration : UriParameterBinderConfiguration :=
  ⟨false, defaultTypeConversionFunction⟩

/- UriParameterBinder (src/src/UriParameterBinder.ts). -/

/-- The binder instance: the uri template string, its parsed parameter
collection, and the construction-time configuration. -/
structure UriParameterBinder where
  uri : String
  parameters : List UriParameter
  configuration : UriParameterBinderConfiguration

/-- The binder constructor: parse the parameter collection from the uri. -/
def UriParameterBinder.make (uri : String) (cfg : UriParameterBinderConfiguration) :
    Option UriParameterBinder :=
  (parseFromUri uri).map (fun ps => ⟨uri, ps, cfg⟩)

/-- The parameter argument of bindParameter: a name string, a UriParameter
object, or the JavaScript undefined produced by indexing an empty
collection. -/
inductive ParamRef where
  | byName (n : String)
  | byParam (p : UriParameter)
  | undefinedParam

/-- convertToString: pass a string value through trimmed; otherwise apply
the construction-time configuration's typeConversionFunction, raising a
UriParameterBindingError when it yields the null sentinel, and trim the
converted result. -/
def UriParameterBinder.convertToString (b : UriParameterBinder) (value : JsValue) :
    Except JsError String :=
  match value with
  | .str s => .ok (jsTrim s)
  | v =>
    match b.configuration.typeConversionFunction v with
    | none => .error (.bindingError "String conversion failed" none)
    | some s => .ok (jsTrim s)

/-- removeTrailingSlashes: drop slash characters from the end of the
string while the last character is a slash. -/
def removeTrailingSlashes (uri : String) : String :=
  String.mk ((uri.data.reverse.dropWhile (fun c => c == Char.ofNat 47)).reverse)

/-- The message of the TypeError raised by reading the required property
of an undefined uriParameter. -/
def undefinedRequiredMsg : String :=
  "Cannot read properties of undefined (reading \x27required\x27)"

/-- The tail of bindParameter once the uriParameter is resolved and the
undefined-substitution has happened: convert the value, rewrap a caught
TypeConversionError with parameter context, reject an empty converted
string for a required parameter, then substitute the percent-encoded
value for the placeholder and strip trailing slashes. -/
def UriParameterBinder.bindResolved (b : UriParameterBinder) (uri : String)
    (p : UriParameter) (value : JsValue) : Except JsError String :=
  match b.convertToString value with
  | .error e =>
    match e with
    | .conversionError t =>
      .error (.bindingError
        ("Cannot bind value for parameter \x27" ++ p.name ++ "\x27, unable to convert "
          ++ jsTypeof value ++ " to string.") (some t))
    | e => .error e
  | .ok converted =>
    if p.required ∧ converted.length = 0 then
      if jsTypeof value = "string" then
        .error (.bindingError
          ("Cannot bind empty string for required parameter " ++ p.name ++ ".") none)
      else
        .error (.bindingError
          ("Cannot bind given " ++ jsTypeof value ++ " value for required parameter "
            ++ p.name ++ " because string conversion results in an empty string.") none)
    else
      .ok (removeTrailingSlashes (replaceFirst uri p.placeholder (encodeURIComponent converted)))

/-- bindParameter for a resolved uriParameter: an undefined value fails
for a required parameter and is substituted by the empty string for an
optional one. -/
def UriParameterBinder.bindParamChecked (b : UriParameterBinder) (uri : String)
    (p : UriParameter) (value : JsValue) : Except JsError String :=
  match value with
  | .undefined =>
    if p.required then
      .error (.bindingError
        ("Cannot bind missing value for required parameter \x27" ++ p.name ++ "\x27.") none)
    else
      b.bindResolved uri p (.str "")
  | v => b.bindResolved uri p v

/-- bindParameter: resolve the parameter argument. A string name is looked
up in the collection and a miss is a binding error; a JavaScript undefined
parameter (indexing an empty collection) passes the null check, so the
subsequent property reads raise a TypeError, after the conversion attempt
for a defined value. -/
def UriParameterBinder.bindParameter (b : UriParameterBinder) (uri : String)
    (pref : ParamRef) (value : JsValue) : Except JsError String :=
  match pref with
  | .byName n =>
    match getParameter b.parameters n with
    | none =>
      .error (.bindingError
        ("Cannot bind value to non-existent parameter \x27" ++ n ++ "\x27.") none)
    | some p => b.bindParamChecked uri p value
  | .byParam p => b.bindParamChecked uri p value
  | .undefinedParam =>
    match value with
    | .undefined => .error (.typeError undefinedRequiredMsg)
    | v =>
      match b.convertToString v with
      | .error (.conversionError _) => .error (.typeError undefinedRequiredMsg)
      | .error e => .error e
      | .ok _ => .error (.typeError undefinedRequiredMsg)

/-- The forEach loop of bindObject: bind each parameter by name lookup,
deleting the consumed key after each successful bind. The second
component is the state of the caller's object when the loop finishes or
the first exception aborts it (the key of the failing parameter is not
deleted). -/
def UriParameterBinder.bindObjectLoop (b : UriParameterBinder) :
    List UriParameter → String → List (String × JsValue) →
      Except JsError String × List (String × JsValue)
  | [], uri, fields => (.ok uri, fields)
  | p :: rest, uri, fields =>
    match b.bindParameter uri (.byParam p) (lookupField fields p.name) with
    | .error e => (.error e, fields)
    | .ok uri2 => b.bindObjectLoop rest uri2 (deleteKey fields p.name)

/-- The loop of bindGetParameters: append each remaining key/value pair,
percent-encoded, preceded by a question mark when the accumulated uri is
the empty string and by an ampersand otherwise. -/
def bindGetParametersLoop : String → List (String × JsValue) → String
  | uri, [] => uri
  | uri, (k, v) :: rest =>
    let uri2 := if uri = "" then uri ++ "?" else uri ++ "&"
    bindGetParametersLoop
      (uri2 ++ encodeURIComponent k ++ "=" ++ encodeURIComponent (jsToString v)) rest

/-- bindObject: run the parameter loop, then append the remaining keys as
GET parameters when the active configuration asks for it. The second
component is the final state of the caller's object. -/
def UriParameterBinder.bindObject (b : UriParameterBinder)
    (cfg : UriParameterBinderConfiguration) (uri : String)
    (fields : List (String × JsValue)) :
    Except JsError String × List (String × JsValue) :=
  match b.bindObjectLoop b.parameters uri fields with
  | (.error e, f) => (.error e, f)
  | (.ok uri2, f) =>
    if cfg.bindGetParameters then (.ok (bindGetParametersLoop uri2 f), f)
    else (.ok uri2, f)

/-- The forEach loop of bindArray: the element at the parameter's index,
or undefined past the end of the array. -/
def UriParameterBinder.bindArrayLoop (b : UriParameterBinder) :
    List UriParameter → Nat → String → List JsValue → Except JsError String
  | [], _, uri, _ => .ok uri
  | p :: rest, i, uri, xs =>
    match b.bindParameter uri (.byParam p) (xs.getD i .undefined) with
    | .error e => .error e
    | .ok uri2 => b.bindArrayLoop rest (i + 1) uri2 xs

/-- bindArray: bind values positionally in parse order. -/
def UriParameterBinder.bindArray (b : UriParameterBinder) (uri : String)
    (xs : List JsValue) : Except JsError String :=
  b.bindArrayLoop b.parameters 0 uri xs

/-- bindValue: a plain scalar is rejected when more than one required
parameter exists, and is otherwise bound to the first entry of the
collection, which is JavaScript undefined when the collection is empty. -/
def UriParameterBinder.bindValue (b : UriParameterBinder) (uri : String)
    (value : JsValue) : Except JsError String :=
  let required := b.parameters.filter (fun p => p.required)
  if required.length > 1 then
    .error (.bindingError
      ("Cannot bind a given " ++ jsTypeof value
        ++ " as uri parameters: this type is handled as a plain value and can only be bound to one parameter but there are "
        ++ toString required.length ++ " required parameters.") none)
  else
    match b.parameters with
    | [] => b.bindParameter uri .undefinedParam value
    | p :: _ => b.bindParameter uri (.byParam p) value

/-- bind: use the per-call configuration override when given; return the
base uri when there are no parameters and GET-parameter binding is off;
otherwise dispatch on the shape of the values argument. -/
def UriParameterBinder.bind (b : UriParameterBinder) (values : JsValue)
    (config : Option UriParameterBinderConfiguration) : Except JsError String :=
  let configuration := config.getD b.configuration
  if b.parameters.length = 0 ∧ configuration.bindGetParameters = false then
    .ok b.uri
  else
    match values with
    | .arr xs => b.bindArray b.uri xs
    | .obj fields => (b.bindObject configuration b.uri fields).1
    | v => b.bindValue b.uri v

/-- canBindObject: attempt bindObject on the caller's object, converting a
UriParameterBindingError into false and re-raising every other error. The
second component is the state of the caller's object afterwards. -/
def UriParameterBinder.canBindObject (b : UriParameterBinder)
    (fields : List (String × JsValue))
    (config : Option UriParameterBinderConfiguration) :
    Except JsError Bool × List (String × JsValue) :=
  let configuration := config.getD b.configuration
  match b.bindObject configuration b.uri fields with
  | (.ok _, f) => (.ok true, f)
  | (.error (.bindingError _ _), f) => (.ok false, f)
  | (.error e, f) => (.error e, f)

/-- The names of the parameters bound successfully, in order, before
bindObject's loop finishes or aborts with its first error. -/
def UriParameterBinder.boundNames (b : UriParameterBinder) :
    List UriParameter → String → List (String × JsValue) → List String
  | [], _, _ => []
  | p :: rest, uri, fields =>
    match b.bindParameter uri (.byParam p) (lookupField fields p.name) with
    | .error _ => []
    | .ok uri2 => p.name :: b.boundNames rest uri2 (deleteKey fields p.name)

/- Uri, Route and the Router (the Router class is the second source file
inside src/src/middleware/registration/ApplyConfiguration.ts). -/

/-- The Uri facade as observed by the router middleware: its string
representation and its configuration object (a plain record of options). -/
structure Uri where
  uriString : String
  configuration : List (String × JsValue)

/-- A Route value: name, HTTP method, Uri and the free-form extra
metadata bag. -/
structure Route where
  name : String
  method : String
  uri : Uri
  extra : List (String × JsValue)

/-- The route's url, the string representation of its Uri. -/
def Route.url (r : Route) : String := r.uri.uriString

/-- Modelled from the spec: Route.applyPrefix rewrites the route's Uri by
prepending the prefix to it (the Route class source is not under src;
only its callers are). -/
def Route.applyPrefix (r : Route) (p : String) : Route :=
  { r with uri := { r.uri with uriString := p ++ r.uri.uriString } }

/-- The Router configuration options consumed by registration. -/
structure RouterConfiguration where
  immutable : Bool
  duplicates : Bool

/-- The default Router configuration: immutable false, duplicates false. -/
def defaultRouterConfiguration : RouterConfiguration := ⟨false, false⟩

/-- First-match lookup in an insertion-ordered map, as Map.prototype.get
(undefined modelled as none). -/
def mapGet {α : Type} : List (String × α) → String → Option α
  | [], _ => none
  | (k2, v) :: rest, k => if k2 = k then some v else mapGet rest k

/-- Map.prototype.set: replace the value of an existing key in place,
otherwise append the new entry at the end. -/
def mapSet {α : Type} : List (String × α) → String → α → List (String × α)
  | [], k, v => [(k, v)]
  | (k2, v2) :: rest, k, v =>
    if k2 = k then (k, v) :: rest else (k2, v2) :: mapSet rest k v

/-- The Router's mutable state: the name-to-route registry, the
signature-to-name index, and the transient route prefix. -/
structure Router where
  routes : List (String × Route)
  signatures : List (String × String)
  routePrefix : Option String

/-- A freshly constructed Router. -/
def Router.empty : Router := ⟨[], [], none⟩

/-- routeSignature: the method and url joined with a colon. -/
def routeSignature (method url : String) : String := method ++ ":" ++ url

/-- registerRoute: reject a name collision when immutable, apply the
scoped prefix to the route before duplicate detection, reject a signature
collision unless duplicates are allowed, then insert into both maps. -/
def Router.registerRoute (cfg : RouterConfiguration) (st : Router) (route : Route) :
    Except JsError Router :=
  if cfg.immutable ∧ (mapGet st.routes route.name).isSome then
    .error (.registrationError
      ("Route \x27" ++ route.name ++ "\x27 is already defined and immutable!"))
  else
    let route2 := match st.routePrefix with
      | some p => route.applyPrefix p
      | none => route
    let signature := routeSignature route2.method route2.url
    let inserted : Router :=
      { st with
        signatures := mapSet st.signatures signature route2.name
        routes := mapSet st.routes route2.name route2 }
    match mapGet st.signatures signature with
    | some oldRoute =>
      if cfg.duplicates = false then
        .error (.registrationError
          ("Route \x27" ++ route2.name ++ "\x27 is a duplicate of existing route \x27"
            ++ oldRoute
            ++ "\x27. If you want to enable multiple aliases for the same url and method combination, set \x27duplicates\x27 option as true."))
      else .ok inserted
    | none => .ok inserted

/-- register: construct a Route from raw parts (a fresh Uri with an empty
configuration record and an empty extra bag) and delegate to
registerRoute. -/
def Router.register (cfg : RouterConfiguration) (st : Router)
    (name method url : String) : Except JsError Router :=
  Router.registerRoute cfg st ⟨name, method, ⟨url, []⟩, []⟩

/-- route: the registered route with the given name, or null. -/
def Router.route (st : Router) (name : String) : Option Route :=
  mapGet st.routes name

/-- A callback step: a registration call or an arbitrary raised error. -/
inductive FlatCmd where
  | register (name method url : String)
  | registerRoute (r : Route)
  | raise

/-- A top-level Router call: a flat step, or prefix with a callback body. -/
inductive RouterCmd where
  | flat (c : FlatCmd)
  | scopePrefix (p : String) (body : List FlatCmd)

/-- Run one flat step: a throwing registration leaves the state unchanged
(the throw happens before either map is updated); raise throws an
arbitrary non-registration error. -/
def runFlat (cfg : RouterConfiguration) (st : Router) :
    FlatCmd → Router × Option JsError
  | .register n m u =>
    match Router.register cfg st n m u with
    | .ok st2 => (st2, none)
    | .error e => (st, some e)
  | .registerRoute r =>
    match Router.registerRoute cfg st r with
    | .ok st2 => (st2, none)
    | .error e => (st, some e)
  | .raise => (st, some (.typeError "callback error"))

/-- Run a sequence of flat steps; the first exception aborts the rest. -/
def runFlats (cfg : RouterConfiguration) (st : Router) :
    List FlatCmd → Router × Option JsError
  | [] => (st, none)
  | c :: rest =>
    match runFlat cfg st c with
    | (st2, some e) => (st2, some e)
    | (st2, none) => runFlats cfg st2 rest

/-- Run one top-level call. The prefix method sets routePrefix, invokes
the callback synchronously, and clears routePrefix afterwards; there is
no try/finally, so an exception from the callback propagates with the
clearing line never executed. -/
def runCmd (cfg : RouterConfiguration) (st : Router) :
    RouterCmd → Router × Option JsError
  | .flat c => runFlat cfg st c
  | .scopePrefix p body =>
    match runFlats cfg { st with routePrefix := some p } body with
    | (st2, some e) => (st2, some e)
    | (st2, none) => ({ st2 with routePrefix := none }, none)

/-- Run a sequence of top-level calls; the first exception aborts the
rest. -/
def runCmds (cfg : RouterConfiguration) (st : Router) :
    List RouterCmd → Router × Option JsError
  | [] => (st, none)
  | c :: rest =>
    match runCmd cfg st c with
    | (st2, some e) => (st2, some e)
    | (st2, none) => runCmds cfg st2 rest

/- ApplyConfiguration (the registration middleware). -/

/-- Modelled from the spec and from its uses in ApplyConfiguration: the
registrar configuration's prefix string, extra metadata record, and uri
option record (the configuration class is not under src). The source
field named prefix is rendered prefixString. -/
structure RouteRegistrarConfiguration where
  prefixString : String
  extra : List (String × JsValue)
  uris : List (String × JsValue)

/-- JavaScript's Object.assign: copy every key of the source into the
target in enumeration order, mutating and returning the target. -/
def objectAssign (target source : List (String × JsValue)) :
    List (String × JsValue) :=
  source.foldl (fun t kv => mapSet t kv.1 kv.2) target

/-- updateUri: when the configured prefix is non-empty, build a new Uri
from the prefixed uri string and the configuration produced by
Object.assign into the route's own uri configuration (mutating it);
otherwise return the route's uri. The second component is the state of
the caller's route object after the call. -/
def ApplyConfiguration.updateUri (cfg : RouteRegistrarConfiguration)
    (route : Route) : Uri × Route :=
  if cfg.prefixString.length > 0 then
    let uriString := cfg.prefixString ++ route.uri.uriString
    let uriConfig := objectAssign route.uri.configuration cfg.uris
    (⟨uriString, uriConfig⟩, { route with uri := { route.uri with configuration := uriConfig } })
  else
    (route.uri, route)

/-- apply: build the updated uri, merge the configured extra into the
route's extra with Object.assign (mutating it), and return a new Route
from the original name and method, the updated uri and the merged extra.
The second component is the state of the caller's route object after the
call. -/
def ApplyConfiguration.apply (cfg : RouteRegistrarConfiguration)
    (route : Route) : Route × Route :=
  let pair := ApplyConfiguration.updateUri cfg route
  let extra := objectAssign pair.2.extra cfg.extra
  (⟨route.name, route.method, pair.1, extra⟩, { pair.2 with extra := extra })

/- Decidable equality for Except results, used to evaluate witnesses. -/

instance {ε α : Type} [DecidableEq ε] [DecidableEq α] : DecidableEq (Except ε α) := fun x y =>
  match x, y with
  | .ok a, .ok b =>
    if h : a = b then .isTrue (by rw [h]) else .isFalse (fun hh => h (Except.ok.inj hh))
  | .error a, .error b =>
    if h : a = b then .isTrue (by rw [h]) else .isFalse (fun hh => h (Except.error.inj hh))
  | .ok _, .error _ => .isFalse (fun hh => Except.noConfusion hh)
  | .error _, .ok _ => .isFalse (fun hh => Except.noConfusion hh)

/-- Scalar shapes: every value other than a plain object or an array is
handled by bindValue. -/
def isScalarValue : JsValue → Bool
  | .obj _ => false
  | .arr _ => false
  | _ => true

/- Concrete instances used by the claims. -/

/-- Configuration with GET-parameter binding enabled and the default
conversion function. -/
def cfgGetParams : UriParameterBinderConfiguration := ⟨true, defaultTypeConversionFunction⟩

/-- The binder for the placeholder-free template of the query-string
scenario, constructed with GET-parameter binding enabled. -/
def searchBinder : UriParameterBinder := ⟨"/search", [], cfgGetParams⟩

/-- A configuration whose conversion function always yields the null
failure sentinel. -/
def cfgNoConversion : UriParameterBinderConfiguration := ⟨false, fun _ => none⟩

/-- A binder with one required parameter and an always-failing conversion
function. -/
def convFailBinder : UriParameterBinder :=
  ⟨"/x/\x7ba\x7d", [⟨"a", true, "\x7ba\x7d"⟩], cfgNoConversion⟩

/-- The parsed parameter collection of the users/posts template. -/
def usersParams : List UriParameter :=
  [⟨"id", true, "\x7bid\x7d"⟩, ⟨"slug", false, "\x7bslug?\x7d"⟩]

/-- The binder of the users/posts scenario under the default
configuration. -/
def usersBinder : UriParameterBinder :=
  ⟨"/users/\x7bid\x7d/posts/\x7bslug?\x7d", usersParams, defaultBinderConfiguration⟩

/-- A binder over a placeholder-free template with GET-parameter binding
enabled, probed with a scalar. -/
def plainBinder : UriParameterBinder := ⟨"/plain", [], cfgGetParams⟩

/-- A second binder over a placeholder-free template with GET-parameter
binding enabled. -/
def nothingBinder : UriParameterBinder := ⟨"/nothing", [], cfgGetParams⟩

/-- A binder whose template has two required parameters. -/
def twoReqBinder : UriParameterBinder :=
  ⟨"/p/\x7bx\x7d/\x7by\x7d", [⟨"x", true, "\x7bx\x7d"⟩, ⟨"y", true, "\x7by\x7d"⟩],
    defaultBinderConfiguration⟩

/-- The sequence registering the same name under two different urls. -/
def dupNameCmds : List RouterCmd :=
  [.flat (.register "r1" "GET" "/a"), .flat (.register "r1" "GET" "/b")]

/-- The sequence registering two names under the same method and url. -/
def dupUrlCmds : List RouterCmd :=
  [.flat (.register "r1" "GET" "/a"), .flat (.register "r2" "GET" "/a")]

/-- Router configuration allowing duplicate signatures. -/
def allowDupConfiguration : RouterConfiguration := ⟨false, true⟩

/-- Registrar configuration with an extra entry and no prefix. -/
def mutConfiguration : RouteRegistrarConfiguration := ⟨"", [("k", .num 1)], []⟩

/-- A route with an empty extra bag. -/
def plainRoute : Route := ⟨"a", "GET", ⟨"/a", []⟩, []⟩

/- Error classification lemmas for the binder. -/

/-- convertToString either succeeds or raises the binding error built
directly inside it. -/
theorem convertToString_cases (b : UriParameterBinder) (v : JsValue) :
    (∃ s, b.convertToString v = .ok s) ∨
      b.convertToString v = .error (.bindingError "String conversion failed" none) := by
  cases v with
  | str s => exact .inl ⟨jsTrim s, rfl⟩
  | num n =>
    simp only [UriParameterBinder.convertToString]
    cases h : b.configuration.typeConversionFunction (.num n) <;> simp [h]
  | bool x =>
    simp only [UriParameterBinder.convertToString]
    cases h : b.configuration.typeConversionFunction (.bool x) <;> simp [h]
  | null =>
    simp only [UriParameterBinder.convertToString]
    cases h : b.configuration.typeConversionFunction .null <;> simp [h]
  | undefined =>
    simp only [UriParameterBinder.convertToString]
    cases h : b.configuration.typeConversionFunction .undefined <;> simp [h]
  | obj fs =>
    simp only [UriParameterBinder.convertToString]
    cases h : b.configuration.typeConversionFunction (.obj fs) <;> simp [h]
  | arr xs =>
    simp only [UriParameterBinder.convertToString]
    cases h : b.configuration.typeConversionFunction (.arr xs) <;> simp [h]

/-- bindResolved either succeeds or raises a UriParameterBindingError. -/
theorem bindResolved_cases (b : UriParameterBinder) (uri : String) (p : UriParameter)
    (v : JsValue) :
    (∃ s, b.bindResolved uri p v = .ok s) ∨
      (∃ m c, b.bindResolved uri p v = .error (.bindingError m c)) := by
  rcases convertToString_cases b v with ⟨s, hs⟩ | hs
  · simp only [UriParameterBinder.bindResolved, hs]
    by_cases h : p.required = true ∧ s.length = 0
    · rw [if_pos h]
      by_cases h2 : jsTypeof v = "string"
      · rw [if_pos h2]; exact .inr ⟨_, _, rfl⟩
      · rw [if_neg h2]; exact .inr ⟨_, _, rfl⟩
    · rw [if_neg h]; exact .inl ⟨_, rfl⟩
  · simp only [UriParameterBinder.bindResolved, hs]
    exact .inr ⟨_, _, rfl⟩

/-- bindParamChecked either succeeds or raises a
UriParameterBindingError. -/
theorem bindParamChecked_cases (b : UriParameterBinder) (uri : String) (p : UriParameter)
    (v : JsValue) :
    (∃ s, b.bindParamChecked uri p v = .ok s) ∨
      (∃ m c, b.bindParamChecked uri p v = .error (.bindingError m c)) := by
  cases v with
  | undefined =>
    unfold UriParameterBinder.bindParamChecked
    by_cases h : p.required = true
    · rw [if_pos h]; exact .inr ⟨_, _, rfl⟩
    · rw [if_neg h]; exact bindResolved_cases b uri p (.str "")
  | str s => exact bindResolved_cases b uri p (.str s)
  | num n => exact bindResolved_cases b uri p (.num n)
  | bool x => exact bindResolved_cases b uri p (.bool x)
  | null => exact bindResolved_cases b uri p .null
  | obj fs => exact bindResolved_cases b uri p (.obj fs)
  | arr xs => exact bindResolved_cases b uri p (.arr xs)

/-- bindParameter on a resolved UriParameter argument either succeeds or
raises a UriParameterBindingError. -/
theorem bindParameter_param_cases (b : UriParameterBinder) (uri : String)
    (p : UriParameter) (v : JsValue) :
    (∃ s, b.bindParameter uri (.byParam p) v = .ok s) ∨
      (∃ m c, b.bindParameter uri (.byParam p) v = .error (.bindingError m c)) :=
  bindParamChecked_cases b uri p v

/-- The bindObject loop either finishes with a bound uri or aborts with a
UriParameterBindingError; either way it also yields the object state. -/
theorem bindObjectLoop_cases (b : UriParameterBinder) (ps : List UriParameter) :
    ∀ (uri : String) (fields : List (String × JsValue)),
      (∃ s f, b.bindObjectLoop ps uri fields = (.ok s, f)) ∨
        (∃ m c f, b.bindObjectLoop ps uri fields = (.error (.bindingError m c), f)) := by
  induction ps with
  | nil => exact fun uri fields => .inl ⟨uri, fields, rfl⟩
  | cons p rest ih =>
    intro uri fields
    rcases bindParameter_param_cases b uri p (lookupField fields p.name) with ⟨s, hs⟩ | ⟨m, c, hmc⟩
    · simp only [UriParameterBinder.bindObjectLoop, hs]
      exact ih s (deleteKey fields p.name)
    · simp only [UriParameterBinder.bindObjectLoop, hmc]
      exact .inr ⟨m, c, fields, rfl⟩

/-- bindObject either returns a bound uri or raises a
UriParameterBindingError. -/
theorem bindObject_cases (b : UriParameterBinder) (cfg : UriParameterBinderConfiguration)
    (uri : String) (fields : List (String × JsValue)) :
    (∃ s, (b.bindObject cfg uri fields).1 = .ok s) ∨
      (∃ m c, (b.bindObject cfg uri fields).1 = .error (.bindingError m c)) := by
  rcases bindObjectLoop_cases b b.parameters uri fields with ⟨s, f, hs⟩ | ⟨m, c, f, hmc⟩
  · simp only [UriParameterBinder.bindObject, hs]
    by_cases h : cfg.bindGetParameters = true
    · rw [if_pos h]; exact .inl ⟨_, rfl⟩
    · rw [if_neg h]; exact .inl ⟨_, rfl⟩
  · simp only [UriParameterBinder.bindObject, hmc]
    exact .inr ⟨m, c, rfl⟩

/-- The bindArray loop either finishes or aborts with a
UriParameterBindingError. -/
theorem bindArrayLoop_cases (b : UriParameterBinder) (ps : List UriParameter) :
    ∀ (i : Nat) (uri : String) (xs : List JsValue),
      (∃ s, b.bindArrayLoop ps i uri xs = .ok s) ∨
        (∃ m c, b.bindArrayLoop ps i uri xs = .error (.bindingError m c)) := by
  induction ps with
  | nil => exact fun i uri xs => .inl ⟨uri, rfl⟩
  | cons p rest ih =>
    intro i uri xs
    rcases bindParameter_param_cases b uri p (xs.getD i .undefined) with ⟨s, hs⟩ | ⟨m, c, hmc⟩
    · simp only [UriParameterBinder.bindArrayLoop, hs]
      exact ih (i + 1) s xs
    · simp only [UriParameterBinder.bindArrayLoop, hmc]
      exact .inr ⟨m, c, rfl⟩

/-- bindParameter on the undefined parameter produced by indexing an
empty collection always raises: a TypeError, except when the conversion
attempt of a defined non-string value fails first with its binding
error. -/
theorem bindParameter_undefinedParam_cases (b : UriParameterBinder) (uri : String)
    (v : JsValue) :
    b.bindParameter uri .undefinedParam v = .error (.typeError undefinedRequiredMsg) ∨
      (∃ m c, b.bindParameter uri .undefinedParam v = .error (.bindingError m c)) := by
  cases v with
  | undefined => exact .inl rfl
  | str s => exact .inl rfl
  | num n =>
    rcases convertToString_cases b (.num n) with ⟨s, hs⟩ | hs
    · exact .inl (by simp only [UriParameterBinder.bindParameter, hs])
    · exact .inr ⟨"String conversion failed", none, by simp only [UriParameterBinder.bindParameter, hs]⟩
  | bool x =>
    rcases convertToString_cases b (.bool x) with ⟨s, hs⟩ | hs
    · exact .inl (by simp only [UriParameterBinder.bindParameter, hs])
    · exact .inr ⟨"String conversion failed", none, by simp only [UriParameterBinder.bindParameter, hs]⟩
  | null =>
    rcases convertToString_cases b .null with ⟨s, hs⟩ | hs
    · exact .inl (by simp only [UriParameterBinder.bindParameter, hs])
    · exact .inr ⟨"String conversion failed", none, by simp only [UriParameterBinder.bindParameter, hs]⟩
  | obj fs =>
    rcases convertToString_cases b (.obj fs) with ⟨s, hs⟩ | hs
    · exact .inl (by simp only [UriParameterBinder.bindParameter, hs])
    · exact .inr ⟨"String conversion failed", none, by simp only [UriParameterBinder.bindParameter, hs]⟩
  | arr xs =>
    rcases convertToString_cases b (.arr xs) with ⟨s, hs⟩ | hs
    · exact .inl (by simp only [UriParameterBinder.bindParameter, hs])
    · exact .inr ⟨"String conversion failed", none, by simp only [UriParameterBinder.bindParameter, hs]⟩

/-- bindValue either succeeds, raises a UriParameterBindingError, or —
exactly when the parameter collection is empty — raises the TypeError of
indexing the empty collection. -/
theorem bindValue_cases (b : UriParameterBinder) (uri : String) (v : JsValue) :
    (∃ s, b.bindValue uri v = .ok s) ∨
      (∃ m c, b.bindValue uri v = .error (.bindingError m c)) ∨
      (b.parameters = [] ∧ b.bindValue uri v = .error (.typeError undefinedRequiredMsg)) := by
  by_cases h : (b.parameters.filter (fun p => p.required)).length > 1
  · have heq : b.bindValue uri v = .error (.bindingError
        ("Cannot bind a given " ++ jsTypeof v
          ++ " as uri parameters: this type is handled as a plain value and can only be bound to one parameter but there are "
          ++ toString (b.parameters.filter (fun p => p.required)).length
          ++ " required parameters.") none) := by
      simp only [UriParameterBinder.bindValue, if_pos h]
    exact .inr (.inl ⟨_, _, heq⟩)
  · cases hps : b.parameters with
    | nil =>
      rw [hps] at h
      rcases bindParameter_undefinedParam_cases b uri v with ht | ⟨m, c, hmc⟩
      · refine .inr (.inr ⟨rfl, ?_⟩)
        simp only [UriParameterBinder.bindValue, hps, if_neg h]
        exact ht
      · refine .inr (.inl ⟨m, c, ?_⟩)
        simp only [UriParameterBinder.bindValue, hps, if_neg h]
        exact hmc
    | cons p rest =>
      rw [hps] at h
      rcases bindParameter_param_cases b uri p v with ⟨s, hs⟩ | ⟨m, c, hmc⟩
      · refine .inl ⟨s, ?_⟩
        simp only [UriParameterBinder.bindValue, hps, if_neg h]
        exact hs
      · refine .inr (.inl ⟨m, c, ?_⟩)
        simp only [UriParameterBinder.bindValue, hps, if_neg h]
        exact hmc

/- Object-state lemmas: the destructive key consumption of bindObject. -/

/-- The object state after the bindObject loop is exactly the input object
with the names bound before the loop finished or aborted deleted, in
order. -/
theorem bindObjectLoop_snd (b : UriParameterBinder) (ps : List UriParameter) :
    ∀ (uri : String) (fields : List (String × JsValue)),
      (b.bindObjectLoop ps uri fields).2 = deleteKeys fields (b.boundNames ps uri fields) := by
  induction ps with
  | nil => intro uri fields; rfl
  | cons p rest ih =>
    intro uri fields
    cases h : b.bindParameter uri (.byParam p) (lookupField fields p.name) with
    | error e =>
      simp only [UriParameterBinder.bindObjectLoop, UriParameterBinder.boundNames, h]
      rfl
    | ok uri2 =>
      simp only [UriParameterBinder.bindObjectLoop, UriParameterBinder.boundNames, h]
      exact ih uri2 (deleteKey fields p.name)

/-- bindObject leaves the object state of its loop untouched. -/
theorem bindObject_snd (b : UriParameterBinder) (cfg : UriParameterBinderConfiguration)
    (uri : String) (fields : List (String × JsValue)) :
    (b.bindObject cfg uri fields).2 = (b.bindObjectLoop b.parameters uri fields).2 := by
  cases hb : b.bindObjectLoop b.parameters uri fields with
  | mk r f =>
    cases r with
    | ok s2 =>
      simp only [UriParameterBinder.bindObject, hb]
      by_cases h : cfg.bindGetParameters = true
      · rw [if_pos h]
      · rw [if_neg h]
    | error e => simp only [UriParameterBinder.bindObject, hb]

/-- canBindObject passes the object state of bindObject through, whatever
the outcome. -/
theorem canBindObject_snd (b : UriParameterBinder)
    (fields : List (String × JsValue)) (cfgOpt : Option UriParameterBinderConfiguration) :
    (b.canBindObject fields cfgOpt).2
      = (b.bindObject (cfgOpt.getD b.configuration) b.uri fields).2 := by
  cases hb : b.bindObject (cfgOpt.getD b.configuration) b.uri fields with
  | mk r f =>
    cases r with
    | ok s2 => simp only [UriParameterBinder.canBindObject, hb]
    | error e =>
      cases e with
      | bindingError m c => simp only [UriParameterBinder.canBindObject, hb]
      | conversionError t => simp only [UriParameterBinder.canBindObject, hb]
      | typeError m => simp only [UriParameterBinder.canBindObject, hb]
      | registrationError m => simp only [UriParameterBinder.canBindObject, hb]

/- Missing-required lemmas for object binding. -/

/-- When every value stored at a key equals undefined, the property read
yields undefined. -/
theorem lookupField_of_all_undef (fields : List (String × JsValue)) (k : String)
    (h : ∀ v, (k, v) ∈ fields → v = JsValue.undefined) : lookupField fields k = .undefined := by
  unfold lookupField
  cases hf : fields.find? (fun kv => kv.1 == k) with
  | none => rfl
  | some kv =>
    have hpred := List.find?_some hf
    have hmem : kv ∈ fields := List.mem_of_find?_eq_some hf
    have hk : kv.1 = k := by simpa using hpred
    have hv : kv.2 = JsValue.undefined := by
      apply h
      have hkv : (k, kv.2) = kv := by
        cases kv; simp_all
      rw [hkv]; exact hmem
    simp [hv]

/-- The bindObject loop aborts with a UriParameterBindingError whenever
some required parameter of the list has no defined value in the object. -/
theorem bindObjectLoop_missing_required (b : UriParameterBinder) (ps : List UriParameter) :
    ∀ (uri : String) (fields : List (String × JsValue)) (p : UriParameter),
      p ∈ ps → p.required = true → (∀ v, (p.name, v) ∈ fields → v = JsValue.undefined) →
      ∃ m c f, b.bindObjectLoop ps uri fields = (.error (.bindingError m c), f) := by
  induction ps with
  | nil => intro _ _ _ hp _ _; cases hp
  | cons q rest ih =>
    intro uri fields p hp hreq hmiss
    rcases List.mem_cons.mp hp with rfl | hp2
    · have hlk : lookupField fields p.name = .undefined := lookupField_of_all_undef _ _ hmiss
      have heq : b.bindObjectLoop (p :: rest) uri fields
          = (.error (.bindingError
              ("Cannot bind missing value for required parameter \x27" ++ p.name ++ "\x27.") none),
             fields) := by
        simp only [UriParameterBinder.bindObjectLoop, hlk, UriParameterBinder.bindParameter,
          UriParameterBinder.bindParamChecked, if_pos hreq]
      exact ⟨_, _, _, heq⟩
    · cases hq : b.bindParameter uri (.byParam q) (lookupField fields q.name) with
      | error e =>
        rcases bindParameter_param_cases b uri q (lookupField fields q.name) with ⟨s, hs⟩ | ⟨m, c, hmc⟩
        · rw [hq] at hs; exact absurd hs (by simp)
        · rw [hq] at hmc
          have he : e = .bindingError m c := Except.error.inj hmc
          subst he
          have heq : b.bindObjectLoop (q :: rest) uri fields
              = (.error (.bindingError m c), fields) := by
            simp only [UriParameterBinder.bindObjectLoop, hq]
          exact ⟨m, c, fields, heq⟩
      | ok uri2 =>
        simp only [UriParameterBinder.bindObjectLoop, hq]
        exact ih uri2 (deleteKey fields q.name) p hp2 hreq
          (fun v hv => hmiss v (List.mem_of_mem_filter hv))

/- Map lemmas for the Router registry. -/

/-- Reading back the key just set yields the new value. -/
theorem mapGet_mapSet_self {α : Type} (m : List (String × α)) (k : String) (v : α) :
    mapGet (mapSet m k v) k = some v := by
  induction m with
  | nil => simp [mapSet, mapGet]
  | cons kv rest ih =>
    obtain ⟨k2, v2⟩ := kv
    by_cases h : k2 = k
    · simp [mapSet, mapGet, h]
    · simp [mapSet, mapGet, h, ih]

/-- Setting one key leaves every other key's entry unchanged. -/
theorem mapGet_mapSet_ne {α : Type} (m : List (String × α)) (k k2 : String) (v : α)
    (h : k ≠ k2) : mapGet (mapSet m k v) k2 = mapGet m k2 := by
  induction m with
  | nil => simp [mapSet, mapGet, h]
  | cons kv rest ih =>
    obtain ⟨k3, v3⟩ := kv
    by_cases h3 : k3 = k
    · subst h3
      simp [mapSet, mapGet, h]
    · simp [mapSet, mapGet, h3, ih]

/-- A present key stays present across any set. -/
theorem mapGet_mapSet_isSome {α : Type} (m : List (String × α)) (k k2 : String) (v : α)
    (h : (mapGet m k2).isSome) : (mapGet (mapSet m k v) k2).isSome := by
  by_cases hk : k = k2
  · subst hk; rw [mapGet_mapSet_self]; rfl
  · rw [mapGet_mapSet_ne m k k2 v hk]; exact h

/-- Every entry of a map after a set is the new entry or an old entry. -/
theorem mem_mapSet {α : Type} (m : List (String × α)) (k : String) (v : α) :
    ∀ e ∈ mapSet m k v, e = (k, v) ∨ e ∈ m := by
  induction m with
  | nil =>
    intro e he
    simp [mapSet] at he
    exact .inl he
  | cons kv rest ih =>
    obtain ⟨k2, v2⟩ := kv
    intro e he
    by_cases h : k2 = k
    · simp only [mapSet, if_pos h] at he
      rcases List.mem_cons.mp he with rfl | hr
      · exact .inl rfl
      · exact .inr (List.mem_cons_of_mem _ hr)
    · simp only [mapSet, if_neg h] at he
      rcases List.mem_cons.mp he with rfl | hr
      · exact .inr (List.mem_cons_self _ _)
      · rcases ih e hr with he2 | he3
        · exact .inl he2
        · exact .inr (List.mem_cons_of_mem _ he3)

/- The signature-index soundness invariant of the Router. -/

/-- Every entry of the signatures index names a route that is present in
the routes registry. -/
def sigSound (st : Router) : Prop :=
  ∀ e ∈ st.signatures, (mapGet st.routes e.2).isSome

/-- A successful registerRoute preserves signature-index soundness: it
inserts the signature entry for the name it inserts into routes, and
old entries keep pointing at registered names. -/
theorem registerRoute_sigSound (cfg : RouterConfiguration) (st : Router) (r : Route)
    (st2 : Router) (hs : sigSound st) (h : Router.registerRoute cfg st r = .ok st2) :
    sigSound st2 := by
  unfold Router.registerRoute at h
  split at h
  · exact absurd h (by simp)
  · simp only at h
    have hins : ∀ route2 : Route,
        sigSound { st with
          signatures := mapSet st.signatures (routeSignature route2.method route2.url) route2.name
          routes := mapSet st.routes route2.name route2 } := by
      intro route2 e he
      rcases mem_mapSet _ _ _ e he with rfl | hmem
      · simp only
        rw [mapGet_mapSet_self]
        rfl
      · exact mapGet_mapSet_isSome _ _ _ _ (hs e hmem)
    split at h
    · split at h
      · exact absurd h (by simp)
      · cases h
        exact hins _
    · cases h
      exact hins _

/-- Running one callback step preserves signature-index soundness. -/
theorem runFlat_sigSound (cfg : RouterConfiguration) (st : Router) (c : FlatCmd)
    (hs : sigSound st) : sigSound (runFlat cfg st c).1 := by
  cases c with
  | register n m u =>
    cases h : Router.register cfg st n m u with
    | ok st2 =>
      simp only [runFlat, h]
      exact registerRoute_sigSound cfg st _ st2 hs h
    | error e => simp only [runFlat, h]; exact hs
  | registerRoute r =>
    cases h : Router.registerRoute cfg st r with
    | ok st2 =>
      simp only [runFlat, h]
      exact registerRoute_sigSound cfg st r st2 hs h
    | error e => simp only [runFlat, h]; exact hs
  | raise => exact hs

/-- Running a callback body preserves signature-index soundness. -/
theorem runFlats_sigSound (cfg : RouterConfiguration) (l : List FlatCmd) :
    ∀ st : Router, sigSound st → sigSound (runFlats cfg st l).1 := by
  induction l with
  | nil => exact fun st hs => hs
  | cons c rest ih =>
    intro st hs
    have hstep := runFlat_sigSound cfg st c hs
    cases h : runFlat cfg st c with
    | mk st2 e =>
      rw [h] at hstep
      cases e with
      | some err => simp only [runFlats, h]; exact hstep
      | none => simp only [runFlats, h]; exact ih st2 hstep

/-- Setting or clearing the route prefix does not touch the maps. -/
theorem sigSound_routePrefix (st : Router) (p : Option String) (hs : sigSound st) :
    sigSound { st with routePrefix := p } := hs

/-- Running one top-level call preserves signature-index soundness. -/
theorem runCmd_sigSound (cfg : RouterConfiguration) (st : Router) (c : RouterCmd)
    (hs : sigSound st) : sigSound (runCmd cfg st c).1 := by
  cases c with
  | flat c2 => exact runFlat_sigSound cfg st c2 hs
  | scopePrefix p body =>
    have hbody := runFlats_sigSound cfg body { st with routePrefix := some p }
      (sigSound_routePrefix st (some p) hs)
    cases h : runFlats cfg { st with routePrefix := some p } body with
    | mk st2 e =>
      rw [h] at hbody
      cases e with
      | some err => simp only [runCmd, h]; exact hbody
      | none => simp only [runCmd, h]; exact hbody

/-- Running a sequence of top-level calls preserves signature-index
soundness. -/
theorem runCmds_sigSound (cfg : RouterConfiguration) (l : List RouterCmd) :
    ∀ st : Router, sigSound st → sigSound (runCmds cfg st l).1 := by
  induction l with
  | nil => exact fun st hs => hs
  | cons c rest ih =>
    intro st hs
    have hstep := runCmd_sigSound cfg st c hs
    cases h : runCmd cfg st c with
    | mk st2 e =>
      rw [h] at hstep
      cases e with
      | some err => simp only [runCmds, h]; exact hstep
      | none => simp only [runCmds, h]; exact ih st2 hstep

/- Claim theorems. -/

/-- C1: binding a key/value object against the placeholder-free template
"/search" with bindGetParameters enabled percent-encodes every pair in
enumeration order, but the code joins the first pair with an ampersand —
the question mark is produced only when the accumulated uri is the empty
string — so the result is "/search&q=a%20b&page=2", not the
"/search?q=a%20b&page=2" the specification states. -/
theorem c1_search_get_parameters_eval :
    searchBinder.bind (.obj [("q", .str "a b"), ("page", .num 2)]) none
        = .ok "/search&q=a%20b&page=2" ∧
      searchBinder.bind (.obj [("q", .str "a b"), ("page", .num 2)]) none
        ≠ .ok "/search?q=a%20b&page=2" ∧
      parseFromUri "/search" = some [] :=
  ⟨rfl, by decide, rfl⟩

/-- C2: when the configured conversion function yields the null sentinel
for a non-string value, convertToString raises a UriParameterBindingError
with the bare message String conversion failed and no cause; the rewrap
branch for TypeConversionError never fires, so no placeholder context
(parameter name, source type) is attached. -/
theorem c2_conversion_failure_not_rewrapped :
    convFailBinder.bind (.obj [("a", .num 5)]) none
        = .error (.bindingError "String conversion failed" none) ∧
      convFailBinder.bind (.obj [("a", .num 5)]) none
        ≠ .error (.bindingError
            "Cannot bind value for parameter \x27a\x27, unable to convert number to string."
            (some ⟨"String conversion failed"⟩)) :=
  ⟨rfl, by decide⟩

/-- C3 counterexample: under the default configuration, registering the
same name with two different urls succeeds twice, after which the routes
map has one entry while the signatures map has two — the maps are not in
one-to-one correspondence. -/
theorem c3_one_to_one_counterexample :
    (runCmds defaultRouterConfiguration Router.empty dupNameCmds).2 = none ∧
      (runCmds defaultRouterConfiguration Router.empty dupNameCmds).1.routes.length = 1 ∧
      (runCmds defaultRouterConfiguration Router.empty dupNameCmds).1.signatures
        = [("GET:/a", "r1"), ("GET:/b", "r1")] :=
  ⟨rfl, rfl, rfl⟩

/-- C3 (amended): in every Router state reachable from a fresh Router by
register, registerRoute and prefix calls, successful or failing, every
entry of the signatures map names a route present in the routes map; the
full one-to-one correspondence does not hold. -/
theorem c3_signatures_sound (cfg : RouterConfiguration) (cmds : List RouterCmd)
    (sig nm : String)
    (h : (sig, nm) ∈ (runCmds cfg Router.empty cmds).1.signatures) :
    (mapGet (runCmds cfg Router.empty cmds).1.routes nm).isSome :=
  runCmds_sigSound cfg cmds Router.empty
    (fun e he => absurd he (List.not_mem_nil e)) (sig, nm) h

/-- C3 witness: the soundness theorem applied to a one-registration run. -/
theorem c3_signatures_sound_witness :
    (("GET:/a", "r1") ∈ (runCmds defaultRouterConfiguration Router.empty
        [.flat (.register "r1" "GET" "/a")]).1.signatures) ∧
      (mapGet (runCmds defaultRouterConfiguration Router.empty
        [.flat (.register "r1" "GET" "/a")]).1.routes "r1").isSome :=
  ⟨by decide,
    c3_signatures_sound defaultRouterConfiguration
      [.flat (.register "r1" "GET" "/a")] "GET:/a" "r1" (by decide)⟩

/-- C5: with the default configuration, a second route with the same
method and url fails with a RegistrationError naming the conflicting
route r1 and leaves the registry exactly as after the first
registration; with duplicates allowed both registrations succeed and each
name resolves independently via route. -/
theorem c5_duplicate_detection :
    (runCmds defaultRouterConfiguration Router.empty dupUrlCmds).2
        = some (.registrationError
            "Route \x27r2\x27 is a duplicate of existing route \x27r1\x27. If you want to enable multiple aliases for the same url and method combination, set \x27duplicates\x27 option as true.") ∧
      (runCmds defaultRouterConfiguration Router.empty dupUrlCmds).1
        = (runCmds defaultRouterConfiguration Router.empty
            [.flat (.register "r1" "GET" "/a")]).1 ∧
      (runCmds allowDupConfiguration Router.empty dupUrlCmds).2 = none ∧
      Router.route (runCmds allowDupConfiguration Router.empty dupUrlCmds).1 "r1"
        = some ⟨"r1", "GET", ⟨"/a", []⟩, []⟩ ∧
      Router.route (runCmds allowDupConfiguration Router.empty dupUrlCmds).1 "r2"
        = some ⟨"r2", "GET", ⟨"/a", []⟩, []⟩ :=
  ⟨rfl, rfl, rfl, rfl, rfl⟩

/-- C6 counterexample: apply with a configuration carrying an extra entry
mutates the input route: Object.assign merges the configured extra into
the caller's extra mapping in place, so the route is not left
unchanged. -/
theorem c6_apply_mutates_input :
    (ApplyConfiguration.apply mutConfiguration plainRoute).2.extra = [("k", .num 1)] ∧
      plainRoute.extra = [] ∧
      (ApplyConfiguration.apply mutConfiguration plainRoute).2 ≠ plainRoute := by
  refine ⟨rfl, rfl, ?_⟩
  intro h
  have h1 : (ApplyConfiguration.apply mutConfiguration plainRoute).2.extra.length = 1 := rfl
  rw [h] at h1
  exact absurd h1 (by decide)

/-- C6 (amended): apply returns a new Route and never reassigns the
input's name, method or uri string, but it merges the configured extra
into the input route's extra mapping in place, and, when the prefix is
non-empty, merges the configured uri options into the input Uri's
configuration in place. -/
theorem c6_apply_frame (cfg : RouteRegistrarConfiguration) (route : Route) :
    (ApplyConfiguration.apply cfg route).2.name = route.name ∧
      (ApplyConfiguration.apply cfg route).2.method = route.method ∧
      (ApplyConfiguration.apply cfg route).2.uri.uriString = route.uri.uriString ∧
      (ApplyConfiguration.apply cfg route).2.extra = objectAssign route.extra cfg.extra ∧
      (ApplyConfiguration.apply cfg route).2.uri.configuration
        = (if cfg.prefixString.length > 0
           then objectAssign route.uri.configuration cfg.uris
           else route.uri.configuration) ∧
      (ApplyConfiguration.apply cfg route).1.name = route.name ∧
      (ApplyConfiguration.apply cfg route).1.method = route.method ∧
      (ApplyConfiguration.apply cfg route).1.uri.uriString
        = (if cfg.prefixString.length > 0
           then cfg.prefixString ++ route.uri.uriString
           else route.uri.uriString) := by
  by_cases h : cfg.prefixString.length > 0
  · simp only [ApplyConfiguration.apply, ApplyConfiguration.updateUri, if_pos h]
    exact ⟨trivial, trivial, trivial, trivial, trivial, trivial, trivial, trivial⟩
  · simp only [ApplyConfiguration.apply, ApplyConfiguration.updateUri, if_neg h]
    exact ⟨trivial, trivial, trivial, trivial, trivial, trivial, trivial, trivial⟩

/-- C10: canBindObject is not a pure probe: its object state is the input
object with every key bound before the probe finished deleted, whether
the probe answers true or false; concretely, a successful probe deletes
the consumed id key, and a failing probe on a template with two required
parameters has already deleted the bound x key. -/
theorem c10_canBindObject_consumes_keys :
    (∀ (b : UriParameterBinder) (fields : List (String × JsValue))
        (cfgOpt : Option UriParameterBinderConfiguration),
        (b.canBindObject fields cfgOpt).2
          = deleteKeys fields (b.boundNames b.parameters b.uri fields)) ∧
      usersBinder.canBindObject [("id", .num 42), ("other", .str "e")] none
        = (.ok true, [("other", .str "e")]) ∧
      twoReqBinder.canBindObject [("x", .str "1")] none = (.ok false, []) := by
  refine ⟨?_, rfl, rfl⟩
  intro b fields cfgOpt
  rw [canBindObject_snd, bindObject_snd]
  exact bindObjectLoop_snd b b.parameters b.uri fields

/-- C4: binding an object whose value for some required parameter of the
collection is undefined (absent or explicitly undefined) always fails
with a UriParameterBindingError; and in the users/posts scenario, the
omitted optional slug is substituted by the empty string with the
trailing slash stripped, a supplied slug is percent-encoded, and the
empty object fails on the missing required id. -/
theorem c4_required_optional_binding (b : UriParameterBinder)
    (fields : List (String × JsValue)) (cfgOpt : Option UriParameterBinderConfiguration)
    (p : UriParameter) (hp : p ∈ b.parameters) (hreq : p.required = true)
    (hmiss : ∀ v, (p.name, v) ∈ fields → v = JsValue.undefined) :
    (∃ m c, b.bind (.obj fields) cfgOpt = .error (.bindingError m c)) ∧
      parseFromUri "/users/\x7bid\x7d/posts/\x7bslug?\x7d" = some usersParams ∧
      usersBinder.bind (.obj [("id", .num 42)]) none = .ok "/users/42/posts" ∧
      usersBinder.bind (.obj [("id", .num 42), ("slug", .str "hello world")]) none
        = .ok "/users/42/posts/hello%20world" ∧
      usersBinder.bind (.obj []) none
        = .error (.bindingError
            "Cannot bind missing value for required parameter \x27id\x27." none) := by
  refine ⟨?_, by decide, rfl, rfl, rfl⟩
  have hne : ¬(b.parameters.length = 0 ∧
      (cfgOpt.getD b.configuration).bindGetParameters = false) := by
    intro hcon
    have hnil : b.parameters = [] := List.length_eq_zero.mp hcon.1
    rw [hnil] at hp
    cases hp
  obtain ⟨m, c, f, hloop⟩ :=
    bindObjectLoop_missing_required b b.parameters b.uri fields p hp hreq hmiss
  refine ⟨m, c, ?_⟩
  simp only [UriParameterBinder.bind, if_neg hne, UriParameterBinder.bindObject, hloop]

/-- C4 witness: the binding theorem applied to the users/posts binder and
the empty object, whose required id parameter is missing. -/
theorem c4_required_optional_binding_witness :
    ∃ m c, usersBinder.bind (.obj []) none = .error (.bindingError m c) :=
  (c4_required_optional_binding usersBinder [] none ⟨"id", true, "\x7bid\x7d"⟩
    (by decide) rfl (fun v hv => absurd hv (List.not_mem_nil _))).1

/-- C7 counterexample: binding a scalar number against a binder whose
parsed parameter collection is empty, with bindGetParameters enabled,
raises the TypeError of reading the required property of undefined — not
a UriParameterBindingError. -/
theorem c7_scalar_empty_params_typeerror :
    plainBinder.bind (.num 5) none = .error (.typeError undefinedRequiredMsg) ∧
      plainBinder.parameters = [] ∧ cfgGetParams.bindGetParameters = true :=
  ⟨rfl, rfl, rfl⟩

/-- C7 (amended): for every values argument and configuration, bind
returns a string or raises a UriParameterBindingError, except that a
scalar bound against an empty parameter collection with
bindGetParameters enabled can instead raise the TypeError of indexing
the empty collection. -/
theorem c7_bind_error_classification (b : UriParameterBinder) (values : JsValue)
    (cfgOpt : Option UriParameterBinderConfiguration) :
    (∃ s, b.bind values cfgOpt = .ok s) ∨
      (∃ m c, b.bind values cfgOpt = .error (.bindingError m c)) ∨
      (b.parameters = [] ∧ (cfgOpt.getD b.configuration).bindGetParameters = true ∧
        isScalarValue values = true ∧
        b.bind values cfgOpt = .error (.typeError undefinedRequiredMsg)) := by
  by_cases hsc : b.parameters.length = 0 ∧
      (cfgOpt.getD b.configuration).bindGetParameters = false
  · refine .inl ⟨b.uri, ?_⟩
    simp only [UriParameterBinder.bind, if_pos hsc]
  · cases values with
    | arr xs =>
      rcases bindArrayLoop_cases b b.parameters 0 b.uri xs with ⟨s, hs⟩ | ⟨m, c, hmc⟩
      · refine .inl ⟨s, ?_⟩
        simp only [UriParameterBinder.bind, if_neg hsc, UriParameterBinder.bindArray]
        exact hs
      · refine .inr (.inl ⟨m, c, ?_⟩)
        simp only [UriParameterBinder.bind, if_neg hsc, UriParameterBinder.bindArray]
        exact hmc
    | obj fields =>
      rcases bindObject_cases b (cfgOpt.getD b.configuration) b.uri fields with
        ⟨s, hs⟩ | ⟨m, c, hmc⟩
      · refine .inl ⟨s, ?_⟩
        simp only [UriParameterBinder.bind, if_neg hsc]
        exact hs
      · refine .inr (.inl ⟨m, c, ?_⟩)
        simp only [UriParameterBinder.bind, if_neg hsc]
        exact hmc
    | str s =>
      rcases bindValue_cases b b.uri (.str s) with ⟨s2, hs⟩ | ⟨m, c, hmc⟩ | ⟨hnil, ht⟩
      · exact .inl ⟨s2, by simp only [UriParameterBinder.bind, if_neg hsc]; exact hs⟩
      · exact .inr (.inl ⟨m, c, by simp only [UriParameterBinder.bind, if_neg hsc]; exact hmc⟩)
      · cases hgp : (cfgOpt.getD b.configuration).bindGetParameters with
        | false => exact absurd ⟨by rw [hnil]; rfl, hgp⟩ hsc
        | true =>
          refine .inr (.inr ⟨hnil, rfl, rfl, ?_⟩)
          simp only [UriParameterBinder.bind, if_neg hsc]
          exact ht
    | num n =>
      rcases bindValue_cases b b.uri (.num n) with ⟨s2, hs⟩ | ⟨m, c, hmc⟩ | ⟨hnil, ht⟩
      · exact .inl ⟨s2, by simp only [UriParameterBinder.bind, if_neg hsc]; exact hs⟩
      · exact .inr (.inl ⟨m, c, by simp only [UriParameterBinder.bind, if_neg hsc]; exact hmc⟩)
      · cases hgp : (cfgOpt.getD b.configuration).bindGetParameters with
        | false => exact absurd ⟨by rw [hnil]; rfl, hgp⟩ hsc
        | true =>
          refine .inr (.inr ⟨hnil, rfl, rfl, ?_⟩)
          simp only [UriParameterBinder.bind, if_neg hsc]
          exact ht
    | bool x =>
      rcases bindValue_cases b b.uri (.bool x) with ⟨s2, hs⟩ | ⟨m, c, hmc⟩ | ⟨hnil, ht⟩
      · exact .inl ⟨s2, by simp only [UriParameterBinder.bind, if_neg hsc]; exact hs⟩
      · exact .inr (.inl ⟨m, c, by simp only [UriParameterBinder.bind, if_neg hsc]; exact hmc⟩)
      · cases hgp : (cfgOpt.getD b.configuration).bindGetParameters with
        | false => exact absurd ⟨by rw [hnil]; rfl, hgp⟩ hsc
        | true =>
          refine .inr (.inr ⟨hnil, rfl, rfl, ?_⟩)
          simp only [UriParameterBinder.bind, if_neg hsc]
          exact ht
    | null =>
      rcases bindValue_cases b b.uri .null with ⟨s2, hs⟩ | ⟨m, c, hmc⟩ | ⟨hnil, ht⟩
      · exact .inl ⟨s2, by simp only [UriParameterBinder.bind, if_neg hsc]; exact hs⟩
      · exact .inr (.inl ⟨m, c, by simp only [UriParameterBinder.bind, if_neg hsc]; exact hmc⟩)
      · cases hgp : (cfgOpt.getD b.configuration).bindGetParameters with
        | false => exact absurd ⟨by rw [hnil]; rfl, hgp⟩ hsc
        | true =>
          refine .inr (.inr ⟨hnil, rfl, rfl, ?_⟩)
          simp only [UriParameterBinder.bind, if_neg hsc]
          exact ht
    | undefined =>
      rcases bindValue_cases b b.uri .undefined with ⟨s2, hs⟩ | ⟨m, c, hmc⟩ | ⟨hnil, ht⟩
      · exact .inl ⟨s2, by simp only [UriParameterBinder.bind, if_neg hsc]; exact hs⟩
      · exact .inr (.inl ⟨m, c, by simp only [UriParameterBinder.bind, if_neg hsc]; exact hmc⟩)
      · cases hgp : (cfgOpt.getD b.configuration).bindGetParameters with
        | false => exact absurd ⟨by rw [hnil]; rfl, hgp⟩ hsc
        | true =>
          refine .inr (.inr ⟨hnil, rfl, rfl, ?_⟩)
          simp only [UriParameterBinder.bind, if_neg hsc]
          exact ht

/-- When the short-circuit does not apply, bind dispatches a scalar value
to bindValue. -/
theorem bind_scalar (b : UriParameterBinder) (v : JsValue)
    (cfgOpt : Option UriParameterBinderConfiguration) (hscal : isScalarValue v = true)
    (hne : ¬(b.parameters.length = 0 ∧
      (cfgOpt.getD b.configuration).bindGetParameters = false)) :
    b.bind v cfgOpt = b.bindValue b.uri v := by
  cases v with
  | obj fields => exact absurd hscal (by simp [isScalarValue])
  | arr xs => exact absurd hscal (by simp [isScalarValue])
  | str s => simp only [UriParameterBinder.bind, if_neg hne]
  | num n => simp only [UriParameterBinder.bind, if_neg hne]
  | bool x => simp only [UriParameterBinder.bind, if_neg hne]
  | null => simp only [UriParameterBinder.bind, if_neg hne]
  | undefined => simp only [UriParameterBinder.bind, if_neg hne]

/-- C8 counterexample: a scalar bound against an empty parameter
collection with bindGetParameters enabled satisfies the at-most-one
required parameter condition, yet the call raises a TypeError rather
than binding the scalar to a first parameter, which does not exist. -/
theorem c8_scalar_empty_collection_counterexample :
    nothingBinder.bind (.str "x") none = .error (.typeError undefinedRequiredMsg) ∧
      (nothingBinder.parameters.filter (fun p => p.required)).length ≤ 1 ∧
      nothingBinder.parameters.head? = none :=
  ⟨rfl, by decide, rfl⟩

/-- C8 (amended): a scalar fails with a UriParameterBindingError whenever
the collection holds more than one required parameter; with a non-empty
collection holding at most one required parameter it is bound to the
first parsed parameter; with an empty collection bind returns the
template unchanged when GET-parameter binding is off and otherwise
raises a TypeError or, when the conversion of the scalar fails first, a
UriParameterBindingError. -/
theorem c8_scalar_binding (b : UriParameterBinder) (v : JsValue)
    (cfgOpt : Option UriParameterBinderConfiguration) (hscal : isScalarValue v = true) :
    ((b.parameters.filter (fun p => p.required)).length > 1 →
        ∃ m, b.bind v cfgOpt = .error (.bindingError m none)) ∧
      (∀ p rest, b.parameters = p :: rest →
        (b.parameters.filter (fun p => p.required)).length ≤ 1 →
        b.bind v cfgOpt = b.bindParameter b.uri (.byParam p) v) ∧
      (b.parameters = [] → (cfgOpt.getD b.configuration).bindGetParameters = false →
        b.bind v cfgOpt = .ok b.uri) ∧
      (b.parameters = [] → (cfgOpt.getD b.configuration).bindGetParameters = true →
        b.bind v cfgOpt = .error (.typeError undefinedRequiredMsg) ∨
          ∃ m c, b.bind v cfgOpt = .error (.bindingError m c)) := by
  refine ⟨?_, ?_, ?_, ?_⟩
  · intro hgt
    have hne : ¬(b.parameters.length = 0 ∧
        (cfgOpt.getD b.configuration).bindGetParameters = false) := by
      intro hcon
      have hnil : b.parameters = [] := List.length_eq_zero.mp hcon.1
      rw [hnil] at hgt
      simp at hgt
    rw [bind_scalar b v cfgOpt hscal hne]
    have heq : b.bindValue b.uri v = .error (.bindingError
        ("Cannot bind a given " ++ jsTypeof v
          ++ " as uri parameters: this type is handled as a plain value and can only be bound to one parameter but there are "
          ++ toString (b.parameters.filter (fun p => p.required)).length
          ++ " required parameters.") none) := by
      simp only [UriParameterBinder.bindValue, if_pos hgt]
    exact ⟨_, heq⟩
  · intro p rest hps hle
    have hne : ¬(b.parameters.length = 0 ∧
        (cfgOpt.getD b.configuration).bindGetParameters = false) := by
      intro hcon
      rw [hps] at hcon
      simp at hcon
    rw [bind_scalar b v cfgOpt hscal hne]
    rw [hps] at hle
    simp only [UriParameterBinder.bindValue, hps, if_neg (Nat.not_lt.mpr hle)]
  · intro hps hgp
    have hsc : b.parameters.length = 0 ∧
        (cfgOpt.getD b.configuration).bindGetParameters = false := ⟨by rw [hps]; rfl, hgp⟩
    simp only [UriParameterBinder.bind, if_pos hsc]
  · intro hps hgp
    have hne : ¬(b.parameters.length = 0 ∧
        (cfgOpt.getD b.configuration).bindGetParameters = false) := by
      intro hcon
      rw [hgp] at hcon
      exact absurd hcon.2 (by simp)
    rw [bind_scalar b v cfgOpt hscal hne]
    have h1 : ¬((List.filter (fun p => p.required) ([] : List UriParameter)).length > 1) := by
      decide
    have heq : b.bindValue b.uri v = b.bindParameter b.uri .undefinedParam v := by
      simp only [UriParameterBinder.bindValue, hps, if_neg h1]
    rw [heq]
    exact bindParameter_undefinedParam_cases b b.uri v

/-- C8 witness: the scalar-binding theorem applied to a binder with two
required parameters, discharging the more-than-one-required hypothesis. -/
theorem c8_scalar_binding_witness :
    ∃ m, twoReqBinder.bind (.str "s") none = .error (.bindingError m none) :=
  (c8_scalar_binding twoReqBinder (.str "s") none rfl).1 (by decide)

/-- C9 counterexample: when the callback passed to prefix raises, the
invocation propagates the error and routePrefix keeps the prefix value
instead of being cleared back to null. -/
theorem c9_prefix_retained_on_throw :
    (runCmds defaultRouterConfiguration Router.empty
        [.scopePrefix "/api" [.raise]]).1.routePrefix = some "/api" ∧
      (runCmds defaultRouterConfiguration Router.empty
        [.scopePrefix "/api" [.raise]]).2.isSome = true :=
  ⟨rfl, rfl⟩

/-- C9 (amended): when the callback completes without raising, prefix
clears routePrefix back to null; every successful registration performed
while routePrefix is scoped stores the route with the prefix prepended to
its url, and every registration with no scoped prefix stores the route
unchanged. When the callback raises, the error propagates and
routePrefix keeps its value. -/
theorem c9_prefix_scoping (cfg : RouterConfiguration) (st : Router) (p : String)
    (body : List FlatCmd) (r : Route) (st2 : Router) :
    ((runFlats cfg { st with routePrefix := some p } body).2 = none →
        (runCmd cfg st (.scopePrefix p body)).1.routePrefix = none) ∧
      (st.routePrefix = some p → Router.registerRoute cfg st r = .ok st2 →
        Router.route st2 r.name = some (r.applyPrefix p)) ∧
      (st.routePrefix = none → Router.registerRoute cfg st r = .ok st2 →
        Router.route st2 r.name = some r) := by
  refine ⟨?_, ?_, ?_⟩
  · intro h
    cases hb : runFlats cfg { st with routePrefix := some p } body with
    | mk st3 e =>
      rw [hb] at h
      have he : e = none := h
      subst he
      simp only [runCmd, hb]
  · intro hpre hreg
    unfold Router.registerRoute at hreg
    split at hreg
    · exact absurd hreg (by simp)
    · simp only [hpre] at hreg
      split at hreg
      · split at hreg
        · exact absurd hreg (by simp)
        · cases hreg
          exact mapGet_mapSet_self _ _ _
      · cases hreg
        exact mapGet_mapSet_self _ _ _
  · intro hpre hreg
    unfold Router.registerRoute at hreg
    split at hreg
    · exact absurd hreg (by simp)
    · simp only [hpre] at hreg
      split at hreg
      · split at hreg
        · exact absurd hreg (by simp)
        · cases hreg
          exact mapGet_mapSet_self _ _ _
      · cases hreg
        exact mapGet_mapSet_self _ _ _

/-- C9 witness: the scoping theorem applied to an empty callback body and
to a concrete registration under a scoped prefix. -/
theorem c9_prefix_scoping_witness :
    (runCmd defaultRouterConfiguration Router.empty
        (.scopePrefix "/api" [])).1.routePrefix = none ∧
      Router.route
          ⟨[("ping", ⟨"ping", "GET", ⟨"/api/ping", []⟩, []⟩)],
            [("GET:/api/ping", "ping")], some "/api"⟩ "ping"
        = some (Route.applyPrefix ⟨"ping", "GET", ⟨"/ping", []⟩, []⟩ "/api") :=
  ⟨(c9_prefix_scoping defaultRouterConfiguration Router.empty "/api" []
      ⟨"ping", "GET", ⟨"/ping", []⟩, []⟩ Router.empty).1 rfl,
    (c9_prefix_scoping defaultRouterConfiguration ⟨[], [], some "/api"⟩ "/api" []
      ⟨"ping", "GET", ⟨"/ping", []⟩, []⟩
      ⟨[("ping", ⟨"ping", "GET", ⟨"/api/ping", []⟩, []⟩)],
        [("GET:/api/ping", "ping")], some "/api"⟩).2.1 rfl rfl⟩
